import Mathlib

/-!
Shallow embedding of the NB-downloader backend (FastAPI app `src/app.py` and
`src/utils/video_processor.py`).  Pure helper functions of `VideoProcessor`
are translated directly; the download pipeline is modelled as explicit state
passing over an abstract scratch-directory filesystem, with the behaviour of
the external tools (yt-dlp, ffmpeg) supplied as environment data.
-/

deriving instance DecidableEq for Except

namespace NB

/-! ### Metadata formatter: `_format_duration` (video_processor.py lines 145-157) -/

/-- Python `f"{n:02d}"`: decimal rendering padded to width at least 2. -/
def pad2 (n : Nat) : String :=
  if n < 10 then "0" ++ toString n else toString n

/-- `VideoProcessor._format_duration`.  Python `if not seconds` is true for
`0` (callers pass `info.get('duration', 0)`, so a missing duration also
arrives as `0`). -/
def _format_duration (seconds : Nat) : String :=
  if seconds = 0 then "Unknown"
  else
    let hours := seconds / 3600
    let minutes := (seconds % 3600) / 60
    let secs := seconds % 60
    if 0 < hours then pad2 hours ++ ":" ++ pad2 minutes ++ ":" ++ pad2 secs
    else pad2 minutes ++ ":" ++ pad2 secs

/-- Duration as it reaches `_format_duration` from `get_video_info`:
`info.get('duration', 0)` turns a missing duration into `0`. -/
def formatDurationOpt (d : Option Nat) : String :=
  _format_duration (d.getD 0)

/-! ### Metadata formatter: `_extract_qualities` (video_processor.py lines 159-177) -/

/-- One yt-dlp format descriptor, restricted to the field the code reads:
`fmt.get('height')`. -/
structure Format where
  height : Option Nat
deriving DecidableEq, Repr

/-- The bucket ladder of `_extract_qualities` (the chained
`if height >= 1440 ... elif height >= 360`).  Note: the source has no
2160p bucket. -/
def bucketLabel (h : Nat) : Option String :=
  if 1440 ≤ h then some "1440p"
  else if 1080 ≤ h then some "1080p"
  else if 720 ≤ h then some "720p"
  else if 480 ≤ h then some "480p"
  else if 360 ≤ h then some "360p"
  else none

/-- Label contributed by one format entry: `height = fmt.get('height');
if height:` skips `None` and `0` before bucketing. -/
def fmtLabel (f : Format) : Option String :=
  match f.height with
  | none => none
  | some h => if h = 0 then none else bucketLabel h

/-- Python `x.replace('p', '')`: remove every occurrence of `p`. -/
def stripP (s : String) : String :=
  String.mk (s.toList.filter (fun c => !(c == 'p')))

/-- The sort key `int(x.replace('p', ''))` of `_extract_qualities`:
decimal reading of the remaining digits (every label the code produces is
purely numeric after the replace, so Python's `int` is this fold). -/
def qualityKey (s : String) : Nat :=
  (stripP s).toList.foldl (fun n c => n * 10 + (c.toNat - '0'.toNat)) 0

/-- One step of accumulating into the Python `set` `qualities`
(modelled as an insertion-ordered duplicate-free list; the final
`sorted(...)` makes the set's iteration order irrelevant). -/
def addQ (acc : List String) (f : Format) : List String :=
  match fmtLabel f with
  | some q => if q ∈ acc then acc else acc ++ [q]
  | none => acc

/-- `VideoProcessor._extract_qualities`: bucket every format's height,
deduplicate, sort descending by the numeric prefix. -/
def _extract_qualities (formats : List Format) : List String :=
  List.insertionSort (fun a b => qualityKey b ≤ qualityKey a) (formats.foldl addQ [])

/-! ### Metadata formatter: `_get_filename_from_url` (video_processor.py lines 179-190) -/

/-- Characters kept by the sanitizer: `c.isalnum() or c in (' ', '-', '_')`. -/
def keepChar (c : Char) : Bool :=
  c.isAlphanum || c == ' ' || c == '-' || c == '_'

/-- Python `str.rstrip()`: drop trailing whitespace. -/
def rstrip (s : String) : String :=
  String.mk ((s.toList.reverse.dropWhile Char.isWhitespace).reverse)

/-- `VideoProcessor._get_filename_from_url`, with the outcome of the
yt-dlp title extraction passed in: `.error` models the bare `except`
branch (extraction raised), `.ok t` models a successful extraction whose
`info.get('title', 'video')` is `t.getD "video"`. -/
def _get_filename_from_url (extracted : Except Unit (Option String)) : String :=
  match extracted with
  | .error _ => "downloaded_video.mp4"
  | .ok t =>
    let title := t.getD "video"
    let safe_title := rstrip (String.mk (title.toList.filter keepChar))
    safe_title ++ ".mp4"

/-! ### Thumbnail selection inside `get_video_info` (video_processor.py lines 29-39) -/

/-- One yt-dlp thumbnail record, restricted to the fields read:
`thumb.get('width', 0)` and `thumb.get('url')`. -/
structure Thumb where
  width : Option Nat
  url : Option String
deriving DecidableEq, Repr

/-- The `best_thumbnail` computation of `get_video_info`: the first
thumbnail with `width >= 480` wins; if none matched, or the winner's url is
falsy (`None` or `""`), fall back to `thumbnails[0].get('url')`. -/
def bestThumbnail (thumbnails : List Thumb) : Option String :=
  if thumbnails.isEmpty then none
  else
    match (thumbnails.find? (fun t => 480 ≤ t.width.getD 0)).bind (fun t => t.url) with
    | some u => if u = "" then thumbnails.head?.bind (fun t => t.url) else some u
    | none => thumbnails.head?.bind (fun t => t.url)

/-- Modelled from the spec: "prefer the highest-resolution thumbnail
available" — the url of a thumbnail of maximal width (first such on ties).
Used only to compare the code's selection against the spec's words. -/
def specHighestResThumb (thumbnails : List Thumb) : Option String :=
  (thumbnails.foldl (fun best t =>
    match best with
    | none => some t
    | some b => if b.width.getD 0 < t.width.getD 0 then some t else some b) none).bind
    (fun t => t.url)

/-! ### The download pipeline (`download_and_merge` and friends)

The per-job scratch directory is modelled as an optional association list
from file name to byte size (`none` = the directory does not exist).  The
external tools only ever touch the three fixed names used in the source
(`video.mp4`, `audio.m4a`, `merged_video.mp4`); what they write, and
whether they raise, is given by an environment record.  `shutil.rmtree`
and `os.remove` are modelled on an ideal filesystem (they do not fail). -/

/-- The scratch directory: `none` when it does not exist on disk, otherwise
the files it holds with their sizes. -/
structure FS where
  dir : Option (List (String × Nat))
deriving DecidableEq, Repr

/-- Write (create or overwrite) a file inside the scratch directory. -/
def fsWrite (fs : FS) (name : String) (size : Nat) : FS :=
  ⟨fs.dir.map (fun d => d.filter (fun p => !(p.1 == name)) ++ [(name, size)])⟩

/-- `os.path.getsize`, partialised: `none` when the file does not exist
(`os.path.exists` is `(fsSize? fs name).isSome`). -/
def fsSize? (fs : FS) (name : String) : Option Nat :=
  (fs.dir.bind (fun d => d.find? (fun p => p.1 == name))).map (fun p => p.2)

/-- `os.remove` on a file known to exist. -/
def fsRemove (fs : FS) (name : String) : FS :=
  ⟨fs.dir.map (fun d => d.filter (fun p => !(p.1 == name)))⟩

/-- Errors that cross the layers of the app, by Python exception class:
`ValueError` (raised by `VideoProcessor`), yt-dlp's own `DownloadError`,
and FastAPI's `HTTPException status_code detail`. -/
inductive PyErr where
  | valueError (msg : String)
  | downloadError (msg : String)
  | httpError (status : Nat) (detail : String)
deriving DecidableEq, Repr

/-- Behaviour of the `ydl.download([url])` call in
`_download_separate_streams`: which of the two target files it leaves on
disk (with what size), and whether it raises. -/
structure FetchEnv where
  writesVideo : Option Nat
  writesAudio : Option Nat
  raises : Option String
deriving DecidableEq, Repr

/-- Behaviour of the ffmpeg invocation in `_merge_video_audio`: what it
leaves at the output path, and whether it raises `ffmpeg.Error` (with its
stderr text). -/
structure MergeEnv where
  writesOutput : Option Nat
  toolErr : Option String
deriving DecidableEq, Repr

/-- Everything the pipeline consumes from the outside world for one job. -/
structure Env where
  fetch : FetchEnv
  merge : MergeEnv
  /-- Outcome of the title extraction in `_get_filename_from_url`. -/
  title : Except Unit (Option String)
  /-- The failure `get_video_info` would report if it were run for
  validation.  The download endpoint (app.py line 85) calls the async
  `get_video_info` without `await`, so this outcome never materialises
  there and the field is not consulted by the serving-layer model. -/
  infoErr : Option String
deriving DecidableEq, Repr

/-- `VideoProcessor._download_separate_streams` (lines 89-116): run the
fetch tool, then check each of the two files for existence and non-zero
size.  Both the missing-file case and the zero-byte case raise the same
`ValueError`. -/
def _download_separate_streams (env : FetchEnv) (fs : FS) :
    FS × Except PyErr (String × String) :=
  let fs1 := match env.writesVideo with
    | some sz => fsWrite fs "video.mp4" sz
    | none => fs
  let fs2 := match env.writesAudio with
    | some sz => fsWrite fs1 "audio.m4a" sz
    | none => fs1
  match env.raises with
  | some msg => (fs2, .error (.downloadError msg))
  | none =>
    if fsSize? fs2 "video.mp4" = none ∨ fsSize? fs2 "video.mp4" = some 0 then
      (fs2, .error (.valueError "Failed to download video stream"))
    else if fsSize? fs2 "audio.m4a" = none ∨ fsSize? fs2 "audio.m4a" = some 0 then
      (fs2, .error (.valueError "Failed to download audio stream"))
    else
      (fs2, .ok ("video.mp4", "audio.m4a"))

/-- `VideoProcessor._merge_video_audio` (lines 118-143): run ffmpeg; an
`ffmpeg.Error` is re-raised as a `ValueError` carrying the message; on a
quiet run the output file must exist and be non-empty. -/
def _merge_video_audio (env : MergeEnv) (fs : FS) : FS × Except PyErr String :=
  let fs1 := match env.writesOutput with
    | some sz => fsWrite fs "merged_video.mp4" sz
    | none => fs
  match env.toolErr with
  | some e => (fs1, .error (.valueError ("Failed to merge video and audio: " ++ e)))
  | none =>
    if fsSize? fs1 "merged_video.mp4" = none ∨ fsSize? fs1 "merged_video.mp4" = some 0 then
      (fs1, .error (.valueError "Failed to merge video and audio"))
    else
      (fs1, .ok "merged_video.mp4")

/-- `VideoProcessor._cleanup_temp_files` (lines 192-199):
`shutil.rmtree(temp_dir)` when it exists; on an ideal filesystem the
scratch directory is gone either way. -/
def _cleanup_temp_files (_fs : FS) : FS := ⟨none⟩

/-- `VideoProcessor.cleanup_file` (lines 201-207): remove the single file
at `path` when it exists; never touches the directory it sits in. -/
def cleanup_file (fs : FS) (path : String) : FS :=
  if (fsSize? fs path).isSome then fsRemove fs path else fs

/-- `VideoProcessor.download_and_merge` (lines 65-87): make the scratch
directory, fetch both streams, merge, delete the two stream files, and
return the output path and suggested filename; any exception triggers
`_cleanup_temp_files` before being re-raised. -/
def download_and_merge (env : Env) : FS × Except PyErr (String × String) :=
  match _download_separate_streams env.fetch ⟨some []⟩ with
  | (fs1, .error e) => (_cleanup_temp_files fs1, .error e)
  | (fs1, .ok (video_file, audio_file)) =>
    match _merge_video_audio env.merge fs1 with
    | (fs2, .error e) => (_cleanup_temp_files fs2, .error e)
    | (fs2, .ok output_file) =>
      let fs3 := if (fsSize? fs2 video_file).isSome then fsRemove fs2 video_file else fs2
      let fs4 := if (fsSize? fs3 audio_file).isSome then fsRemove fs3 audio_file else fs3
      (fs4, .ok (output_file, _get_filename_from_url env.title))

/-! ### The serving layer (`src/app.py`) -/

/-- The URL check shared by both endpoints (app.py lines 56 and 81):
`not url or "youtube.com" not in url and "youtu.be" not in url` rejects;
this is the accepted side.  Substring containment is over the raw string. -/
def hasSub (s pat : String) : Bool :=
  decide (List.IsInfix pat.toList s.toList)

/-- `True` exactly when the endpoints let the URL through to the extractor. -/
def urlAccepted (url : String) : Bool :=
  !((url == "") || (!(hasSub url "youtube.com") && !(hasSub url "youtu.be")))

/-- `preview_video` (app.py lines 51-71).  The try-block either raises
the URL-gate `HTTPException(400, "Invalid YouTube URL")` or returns the
success payload: `get_video_info` at line 60 is called without `await`,
so it only produces an un-awaited coroutine (held in the response's
`data` field, abstracted to `Unit` here) and can raise nothing.  The
endpoint's `except` chain has no `HTTPException` clause: `except
ValueError` does not match an `HTTPException`, so the catch-all `except
Exception` converts the URL-gate rejection into the generic
500 `Failed to get video preview`. -/
def preview_video (url : String) : Except PyErr Unit :=
  let body : Except PyErr Unit :=
    if !(urlAccepted url) then .error (.httpError 400 "Invalid YouTube URL")
    else .ok ()
  match body with
  | .ok v => .ok v
  | .error (.valueError m) => .error (.httpError 400 m)
  | .error _ => .error (.httpError 500 "Failed to get video preview")

/-- `download_video` (app.py lines 73-117), modelled faithfully including
the asyncio misuse at line 88: a rejected URL's
`HTTPException(400, "Invalid YouTube URL")` is re-raised verbatim by
`except HTTPException`; on an accepted URL, `get_video_info` (line 85) is
never awaited and cannot raise, and `await asyncio.to_thread(
video_processor.download_and_merge, url)` evaluates to the un-awaited
coroutine object of the async `download_and_merge` — the pipeline body
never runs, no scratch directory is created, and the tuple unpacking
raises `TypeError`, which the catch-all turns into the 500
`Failed to download video`.  The size gate of lines 91-94 and the
deferred-cleanup registration are therefore unreachable, and neither
`env` nor `maxSize` is ever consulted. -/
def download_video (url : String) (env : Env) (maxSize : Nat) :
    FS × Except PyErr (String × String × Nat) :=
  if !(urlAccepted url) then
    (⟨none⟩, .error (.httpError 400 "Invalid YouTube URL"))
  else
    (⟨none⟩, .error (.httpError 500 "Failed to download video"))

/-! ## Helper lemmas -/

/-- `pad2` always renders exactly two characters below 100. -/
theorem pad2_length : ∀ n, n < 100 → (pad2 n).length = 2 := by decide

/-- The head of `dropWhile p` never satisfies `p`. -/
theorem head?_dropWhile_eq_some {α : Type} (p : α → Bool) (l : List α) (c : α)
    (h : (l.dropWhile p).head? = some c) : p c = false := by
  induction l with
  | nil => simp [List.dropWhile] at h
  | cons a t ih =>
    rw [List.dropWhile_cons] at h
    by_cases hp : p a
    · rw [if_pos hp] at h
      exact ih h
    · rw [if_neg hp] at h
      simp only [List.head?_cons, Option.some.injEq] at h
      subst h
      exact Bool.eq_false_iff.mpr hp

/-! ## C4 — duration formatting -/

/-- C4: `_format_duration` returns `"Unknown"` for a zero or missing
duration, a zero-padded `MM:SS` rendering (5 characters) below one hour,
an `HH:MM:SS` rendering at or above one hour; 45 s gives `"00:45"` and
3661 s gives `"01:01:01"`. -/
theorem C4_duration_formatting :
    formatDurationOpt none = "Unknown" ∧
    _format_duration 0 = "Unknown" ∧
    (∀ s, 0 < s → s < 3600 →
      _format_duration s = pad2 (s / 60) ++ ":" ++ pad2 (s % 60) ∧
      (_format_duration s).length = 5) ∧
    (∀ s, 3600 ≤ s →
      _format_duration s =
        pad2 (s / 3600) ++ ":" ++ pad2 (s % 3600 / 60) ++ ":" ++ pad2 (s % 60)) ∧
    _format_duration 45 = "00:45" ∧
    _format_duration 3661 = "01:01:01" := by
  refine ⟨by decide, by decide, ?_, ?_, by decide, by decide⟩
  · intro s hs hlt
    have h0 : ¬ s = 0 := by omega
    have hdiv : s / 3600 = 0 := Nat.div_eq_of_lt hlt
    have hmod : s % 3600 = s := Nat.mod_eq_of_lt hlt
    have e : _format_duration s = pad2 (s / 60) ++ ":" ++ pad2 (s % 60) := by
      simp [_format_duration, h0, hdiv, hmod]
    refine ⟨e, ?_⟩
    have h1 : s / 60 < 100 := by omega
    have h2 : s % 60 < 100 := by omega
    rw [e, String.length_append, String.length_append,
      pad2_length _ h1, pad2_length _ h2]
    rfl
  · intro s hs
    have h0 : ¬ s = 0 := by omega
    have hdiv : 0 < s / 3600 := Nat.div_pos hs (by norm_num)
    simp [_format_duration, h0, hdiv]

/-- C4 witness: the MM:SS branch instantiated at 125 seconds. -/
theorem C4_duration_formatting_witness :
    _format_duration 125 = pad2 (125 / 60) ++ ":" ++ pad2 (125 % 60) ∧
    (_format_duration 125).length = 5 :=
  C4_duration_formatting.2.2.1 125 (by decide) (by decide)

/-! ## C3 — quality buckets -/

/-- C3 counterexample: on heights {144, 1080, 720, 2001, 480} the code
does NOT produce `["2160p", "1080p", "720p", "480p"]` — its bucket ladder
has no 2160p tier, so 2001 lands in "1440p". -/
theorem C3_counterexample :
    _extract_qualities [⟨some 144⟩, ⟨some 1080⟩, ⟨some 720⟩, ⟨some 2001⟩, ⟨some 480⟩] ≠
      ["2160p", "1080p", "720p", "480p"] := by decide

/-- C3 amended: the bucket table of `_extract_qualities` tops out at
`height ≥ 1440 → "1440p"` (there is no 2160p bucket); below that,
≥1080 → "1080p", ≥720 → "720p", ≥480 → "480p", ≥360 → "360p", and heights
below 360 or missing are dropped.  On heights {144, 1080, 720, 2001, 480}
the result is `["1440p", "1080p", "720p", "480p"]`. -/
theorem C3_amended_buckets :
    (∀ n, 1440 ≤ n → bucketLabel n = some "1440p") ∧
    (∀ n, 1080 ≤ n → n < 1440 → bucketLabel n = some "1080p") ∧
    (∀ n, 720 ≤ n → n < 1080 → bucketLabel n = some "720p") ∧
    (∀ n, 480 ≤ n → n < 720 → bucketLabel n = some "480p") ∧
    (∀ n, 360 ≤ n → n < 480 → bucketLabel n = some "360p") ∧
    (∀ n, n < 360 → bucketLabel n = none) ∧
    (∀ f : Format, f.height = none → fmtLabel f = none) ∧
    _extract_qualities [⟨some 144⟩, ⟨some 1080⟩, ⟨some 720⟩, ⟨some 2001⟩, ⟨some 480⟩] =
      ["1440p", "1080p", "720p", "480p"] := by
  refine ⟨?_, ?_, ?_, ?_, ?_, ?_, ?_, by decide⟩
  · intro n h1
    simp [bucketLabel, h1]
  · intro n h1 h2
    have k : ¬ 1440 ≤ n := by omega
    simp [bucketLabel, k, h1]
  · intro n h1 h2
    have k1 : ¬ 1440 ≤ n := by omega
    have k2 : ¬ 1080 ≤ n := by omega
    simp [bucketLabel, k1, k2, h1]
  · intro n h1 h2
    have k1 : ¬ 1440 ≤ n := by omega
    have k2 : ¬ 1080 ≤ n := by omega
    have k3 : ¬ 720 ≤ n := by omega
    simp [bucketLabel, k1, k2, k3, h1]
  · intro n h1 h2
    have k1 : ¬ 1440 ≤ n := by omega
    have k2 : ¬ 1080 ≤ n := by omega
    have k3 : ¬ 720 ≤ n := by omega
    have k4 : ¬ 480 ≤ n := by omega
    simp [bucketLabel, k1, k2, k3, k4, h1]
  · intro n h1
    have k1 : ¬ 1440 ≤ n := by omega
    have k2 : ¬ 1080 ≤ n := by omega
    have k3 : ¬ 720 ≤ n := by omega
    have k4 : ¬ 480 ≤ n := by omega
    have k5 : ¬ 360 ≤ n := by omega
    simp [bucketLabel, k1, k2, k3, k4, k5]
  · intro f hf
    simp [fmtLabel, hf]

/-- C3 amended witness: the top and bottom of the real bucket table. -/
theorem C3_amended_buckets_witness :
    bucketLabel 2160 = some "1440p" ∧ bucketLabel 144 = none :=
  ⟨C3_amended_buckets.1 2160 (by norm_num),
   C3_amended_buckets.2.2.2.2.2.1 144 (by norm_num)⟩

/-! ## C5 — filename sanitization -/

/-- C5: `_get_filename_from_url` keeps only alphanumerics, spaces,
hyphens and underscores from the title (the kept characters are a
subsequence of the title), leaves no trailing whitespace, appends
`".mp4"`; when title extraction fails it returns the fixed fallback
`"downloaded_video.mp4"` (it is a total function, so it never raises);
the spec's example title sanitizes as stated. -/
theorem C5_filename_sanitization (extracted : Except Unit (Option String)) :
    (∀ u, extracted = .error u →
      _get_filename_from_url extracted = "downloaded_video.mp4") ∧
    (∀ t, extracted = .ok (some t) →
      ∃ stem, _get_filename_from_url extracted = stem ++ ".mp4" ∧
        List.Sublist stem.toList t.toList ∧
        (∀ c ∈ stem.toList, keepChar c = true) ∧
        (∀ c, stem.toList.getLast? = some c → c.isWhitespace = false)) ∧
    _get_filename_from_url (.ok (some "Cool Video! #1 (Official)")) =
      "Cool Video 1 Official.mp4" := by
  refine ⟨?_, ?_, by decide⟩
  · rintro u rfl
    rfl
  · rintro t rfl
    refine ⟨rstrip (String.mk (t.toList.filter keepChar)), rfl, ?_, ?_, ?_⟩
    · show List.Sublist ((((t.toList.filter keepChar).reverse.dropWhile
        Char.isWhitespace).reverse : List Char)) t.toList
      have h1 : List.Sublist ((t.toList.filter keepChar).reverse.dropWhile
          Char.isWhitespace) (t.toList.filter keepChar).reverse :=
        (List.dropWhile_suffix _).sublist
      have h2 := h1.reverse
      rw [List.reverse_reverse] at h2
      exact h2.trans (List.filter_sublist _)
    · intro c hc
      have h1 : List.Sublist ((t.toList.filter keepChar).reverse.dropWhile
          Char.isWhitespace) (t.toList.filter keepChar).reverse :=
        (List.dropWhile_suffix _).sublist
      have h2 := h1.reverse
      rw [List.reverse_reverse] at h2
      have : c ∈ t.toList.filter keepChar := h2.subset hc
      exact (List.mem_filter.mp this).2
    · intro c hc
      rw [show (rstrip (String.mk (t.toList.filter keepChar))).toList =
        ((t.toList.filter keepChar).reverse.dropWhile Char.isWhitespace).reverse
        from rfl] at hc
      rw [List.getLast?_reverse] at hc
      exact head?_dropWhile_eq_some _ _ _ hc

/-- C5 witness: the failure branch and the example title. -/
theorem C5_filename_sanitization_witness :
    _get_filename_from_url (.error ()) = "downloaded_video.mp4" :=
  (C5_filename_sanitization (.error ())).1 () rfl

/-! ## C10 — URL validation gate -/

/-- C10 counterexample: the preview endpoint does NOT reject a
non-matching URL "with an invalid-URL error": its URL-gate
`HTTPException` is swallowed by the endpoint's catch-all (there is no
`except HTTPException` clause in app.py lines 67-71) and surfaces as the
generic 500 `Failed to get video preview`. -/
theorem C10_counterexample :
    preview_video "https://vimeo.com/123" =
      .error (.httpError 500 "Failed to get video preview") ∧
    preview_video "https://vimeo.com/123" ≠
      .error (.httpError 400 "Invalid YouTube URL") := by decide

/-- C10 amended: both endpoints accept a URL exactly when it contains
`"youtube.com"` or `"youtu.be"` as a substring anywhere (a URL of another
host embedding the substring in its query is accepted), and every other
URL — including the empty one — is rejected before any extraction is
attempted; the download endpoint reports the 400 `Invalid YouTube URL`
error, while the preview endpoint's catch-all converts the same rejection
into the generic 500 `Failed to get video preview` response.  The
rejection is independent of the environment, so nothing beyond the URL
string is ever consulted for a rejected request. -/
theorem C10_amended_url_gate (url : String) (env : Env) (maxSize : Nat) :
    (urlAccepted url = (hasSub url "youtube.com" || hasSub url "youtu.be")) ∧
    (urlAccepted url = false →
      preview_video url = .error (.httpError 500 "Failed to get video preview") ∧
      download_video url env maxSize =
        (⟨none⟩, .error (.httpError 400 "Invalid YouTube URL"))) ∧
    urlAccepted "https://example.com/watch?v=youtube.com" = true ∧
    urlAccepted "https://vimeo.com/123" = false := by
  refine ⟨?_, ?_, by decide, by decide⟩
  · by_cases hu : url = ""
    · subst hu
      decide
    · have hbeq : (url == "") = false := beq_eq_false_iff_ne.mpr hu
      simp [urlAccepted, hbeq]
  · intro h
    constructor
    · simp [preview_video, h]
    · simp [download_video, h]

/-- C10 amended witness: a non-YouTube URL is rejected by both endpoints,
as a 500 on preview and a 400 on download. -/
theorem C10_amended_url_gate_witness :
    preview_video "https://dailymotion.com/video/1" =
      .error (.httpError 500 "Failed to get video preview") ∧
    download_video "https://dailymotion.com/video/1"
        ⟨⟨none, none, none⟩, ⟨none, none⟩, .error (), none⟩ 0 =
      (⟨none⟩, .error (.httpError 400 "Invalid YouTube URL")) :=
  (C10_amended_url_gate "https://dailymotion.com/video/1"
    ⟨⟨none, none, none⟩, ⟨none, none⟩, .error (), none⟩ 0).2.1 (by decide)

/-! ## C6 — stream-fetch failure modes -/

/-- C6 counterexample: an absent video file and a present-but-empty video
file raise the very same `ValueError("Failed to download video stream")`
— the two failure modes the claim calls `StreamNotFound` and
`StreamEmpty` are not distinguishable in the code. -/
theorem C6_counterexample :
    (_download_separate_streams ⟨none, some 5, none⟩ ⟨some []⟩).2 =
      (_download_separate_streams ⟨some 0, some 5, none⟩ ⟨some []⟩).2 ∧
    (_download_separate_streams ⟨none, some 5, none⟩ ⟨some []⟩).2 =
      .error (.valueError "Failed to download video stream") := by decide

/-- C6 amended: whether the video file is absent after the fetch or
present with zero bytes, `_download_separate_streams` fails with the one
undifferentiated error `ValueError("Failed to download video stream")`;
that error is distinct from the external service's own exception class
(`DownloadError`), but the absent and empty cases cannot be told apart. -/
theorem C6_amended (env : FetchEnv) (h : env.raises = none)
    (habs : env.writesVideo = none ∨ env.writesVideo = some 0) :
    (_download_separate_streams env ⟨some []⟩).2 =
      .error (.valueError "Failed to download video stream") ∧
    (∀ m, (PyErr.valueError "Failed to download video stream") ≠
      PyErr.downloadError m) := by
  obtain ⟨wv, wa, rs⟩ := env
  simp only at h habs
  subst h
  refine ⟨?_, fun m hh => PyErr.noConfusion hh⟩
  rcases habs with rfl | rfl <;>
    rcases wa with _ | a <;>
      simp [_download_separate_streams, fsWrite, fsSize?, List.find?]

/-- C6 amended witness: the zero-byte case at a concrete environment. -/
theorem C6_amended_witness :
    (_download_separate_streams ⟨some 0, some 7, none⟩ ⟨some []⟩).2 =
      .error (.valueError "Failed to download video stream") :=
  (C6_amended ⟨some 0, some 7, none⟩ rfl (Or.inr rfl)).1

/-! ## C1 — cleanup on every failing pipeline stage -/

/-- C1: whenever `download_and_merge` propagates an error — from the
stream fetch (tool raise, missing or empty video, missing or empty
audio) or from the merge — the scratch directory has been removed
(`_cleanup_temp_files`) before the error reaches the caller, so a failed
job leaves no temporary file behind. -/
theorem C1_error_cleanup (env : Env) (e : PyErr)
    (h : (download_and_merge env).2 = .error e) :
    (download_and_merge env).1.dir = none := by
  unfold download_and_merge at h ⊢
  split at h
  next => rfl
  next =>
    split at h
    next => rfl
    next => simp at h

/-- C1 witness: a fetch-stage tool failure ends with no scratch
directory. -/
theorem C1_error_cleanup_witness :
    (download_and_merge ⟨⟨none, none, some "boom"⟩, ⟨none, none⟩,
        .error (), none⟩).2 = .error (.downloadError "boom") ∧
    (download_and_merge ⟨⟨none, none, some "boom"⟩, ⟨none, none⟩,
        .error (), none⟩).1.dir = none :=
  ⟨by decide, C1_error_cleanup _ (.downloadError "boom") (by decide)⟩

/-! ## Success-path shape of the pipeline -/

/-- On the success path the returned output is always
`merged_video.mp4`, and the scratch directory still exists holding
exactly that file (the two stream files were deleted in
`download_and_merge`). -/
theorem download_and_merge_ok (env : Env) (out fname : String)
    (h : (download_and_merge env).2 = .ok (out, fname)) :
    out = "merged_video.mp4" ∧
    ∃ o : Nat, o ≠ 0 ∧
      (download_and_merge env).1 = ⟨some [("merged_video.mp4", o)]⟩ := by
  obtain ⟨⟨wv, wa, rs⟩, ⟨wo, te⟩, ttl, ie⟩ := env
  rcases wv with _ | v
  · rcases wa with _ | a <;> rcases rs with _ | msg <;>
      simp_all [download_and_merge, _download_separate_streams,
        _merge_video_audio, _cleanup_temp_files, fsWrite, fsSize?, fsRemove]
  · rcases wa with _ | a
    · rcases rs with _ | msg <;> by_cases hv : v = 0 <;>
        simp_all [download_and_merge, _download_separate_streams,
          _merge_video_audio, _cleanup_temp_files, fsWrite, fsSize?, fsRemove]
    · rcases rs with _ | msg
      · rcases te with _ | temsg
        · rcases wo with _ | o
          · by_cases hv : v = 0 <;> by_cases ha : a = 0 <;>
              simp_all [download_and_merge, _download_separate_streams,
                _merge_video_audio, _cleanup_temp_files, fsWrite, fsSize?,
                fsRemove]
          · by_cases hv : v = 0 <;> by_cases ha : a = 0 <;> by_cases ho : o = 0
            all_goals try (simp_all [download_and_merge,
              _download_separate_streams, _merge_video_audio,
              _cleanup_temp_files, fsWrite, fsSize?, fsRemove]; done)
            simp [download_and_merge, _download_separate_streams,
              _merge_video_audio, fsWrite, fsSize?, fsRemove, hv, ha, ho] at h
            obtain ⟨h1, h2⟩ := h
            subst h1
            refine ⟨rfl, o, ho, ?_⟩
            simp [download_and_merge, _download_separate_streams,
              _merge_video_audio, fsWrite, fsSize?, fsRemove, hv, ha, ho]
        · by_cases hv : v = 0 <;> by_cases ha : a = 0 <;>
            simp_all [download_and_merge, _download_separate_streams,
              _merge_video_audio, _cleanup_temp_files, fsWrite, fsSize?,
              fsRemove]
      · simp_all [download_and_merge, _download_separate_streams,
          _merge_video_audio, _cleanup_temp_files, fsWrite, fsSize?, fsRemove]

/-! ## C2 — scratch directory after a successful job plus deferred cleanup -/

/-- C2 counterexample: a fully successful job followed by the deferred
cleanup (`cleanup_file` on the delivered output, exactly what the
endpoint's background task runs) leaves the scratch directory in
existence — `cleanup_file` removes the output file only, never the
directory, so the claim "the scratch directory no longer exists" fails. -/
theorem C2_counterexample :
    (download_and_merge ⟨⟨some 10, some 10, none⟩, ⟨some 100, none⟩,
        .error (), none⟩).2 =
      .ok ("merged_video.mp4", "downloaded_video.mp4") ∧
    (cleanup_file (download_and_merge ⟨⟨some 10, some 10, none⟩,
        ⟨some 100, none⟩, .error (), none⟩).1 "merged_video.mp4").dir ≠
      none := by decide

/-- C2 amended: after a successful job and the deferred `cleanup_file`
on the delivered output, the output file no longer exists and the scratch
directory is empty — but the directory itself is still present on disk
(the code never removes it on the success path). -/
theorem C2_amended (env : Env) (out fname : String)
    (h : (download_and_merge env).2 = .ok (out, fname)) :
    fsSize? (cleanup_file (download_and_merge env).1 out) out = none ∧
    (cleanup_file (download_and_merge env).1 out).dir = some [] := by
  obtain ⟨rfl, o, ho, hfs⟩ := download_and_merge_ok env out fname h
  rw [hfs]
  constructor <;> simp [cleanup_file, fsSize?, fsRemove]

/-- C2 amended witness: a concrete successful job. -/
theorem C2_amended_witness :
    fsSize? (cleanup_file (download_and_merge ⟨⟨some 3, some 4, none⟩,
        ⟨some 5, none⟩, .error (), none⟩).1 "merged_video.mp4")
      "merged_video.mp4" = none ∧
    (cleanup_file (download_and_merge ⟨⟨some 3, some 4, none⟩, ⟨some 5, none⟩,
        .error (), none⟩).1 "merged_video.mp4").dir = some [] :=
  C2_amended _ "merged_video.mp4" "downloaded_video.mp4" (by decide)

/-! ## C7 — size enforcement -/

/-- C7: the size gate of app.py lines 91-94 (measure, delete, 413
`File too large`) is dead code.  At an accepted URL, in an environment
where the pipeline itself would have succeeded with an output of
2 GiB + 1 bytes against the default 2 GiB limit, the endpoint still
answers the generic 500 `Failed to download video` and touches no file:
line 88 never awaits the `download_and_merge` coroutine, so unpacking it
raises `TypeError` before any size is measured. -/
theorem C7_size_gate_unreachable :
    download_video "https://youtu.be/xyz" ⟨⟨some 10, some 10, none⟩,
        ⟨some 2147483649, none⟩, .error (), none⟩ 2147483648 =
      (⟨none⟩, .error (.httpError 500 "Failed to download video")) ∧
    (download_and_merge ⟨⟨some 10, some 10, none⟩, ⟨some 2147483649, none⟩,
        .error (), none⟩).2 =
      .ok ("merged_video.mp4", "downloaded_video.mp4") ∧
    2147483648 <
      (fsSize? (download_and_merge ⟨⟨some 10, some 10, none⟩,
        ⟨some 2147483649, none⟩, .error (), none⟩).1
        "merged_video.mp4").getD 0 := by decide

/-! ## C8 — quality extraction is deduplicated, sorted, order-stable -/

/-- The five labels `_extract_qualities` can ever emit. -/
def allLabels : List String := ["1440p", "1080p", "720p", "480p", "360p"]

theorem mem_addQ (acc : List String) (f : Format) (q : String) :
    q ∈ addQ acc f ↔ q ∈ acc ∨ fmtLabel f = some q := by
  cases hf : fmtLabel f with
  | none => simp [addQ, hf]
  | some a =>
    by_cases ha : a ∈ acc
    · simp only [addQ, hf]
      rw [if_pos ha]
      constructor
      · exact fun hq => Or.inl hq
      · rintro (hq | hq)
        · exact hq
        · injection hq with hq
          subst hq
          exact ha
    · simp only [addQ, hf]
      rw [if_neg ha]
      simp [List.mem_append, eq_comm]

theorem mem_foldl_addQ (fs : List Format) :
    ∀ (acc : List String) (q : String),
      q ∈ fs.foldl addQ acc ↔ q ∈ acc ∨ ∃ x ∈ fs, fmtLabel x = some q := by
  induction fs with
  | nil => simp
  | cons f fs ih =>
    intro acc q
    rw [List.foldl_cons, ih, mem_addQ]
    simp only [List.mem_cons]
    constructor
    · rintro ((hq | hq) | ⟨x, hx, hl⟩)
      · exact Or.inl hq
      · exact Or.inr ⟨f, Or.inl rfl, hq⟩
      · exact Or.inr ⟨x, Or.inr hx, hl⟩
    · rintro (hq | ⟨x, hx | hx, hl⟩)
      · exact Or.inl (Or.inl hq)
      · subst hx
        exact Or.inl (Or.inr hl)
      · exact Or.inr ⟨x, hx, hl⟩

theorem nodup_addQ (acc : List String) (f : Format) (h : acc.Nodup) :
    (addQ acc f).Nodup := by
  cases hf : fmtLabel f with
  | none => simpa [addQ, hf] using h
  | some a =>
    by_cases ha : a ∈ acc
    · simp only [addQ, hf]
      rw [if_pos ha]
      exact h
    · simp only [addQ, hf]
      rw [if_neg ha]
      simp [List.nodup_append, h, ha]

theorem nodup_foldl_addQ (fs : List Format) :
    ∀ acc : List String, acc.Nodup → (fs.foldl addQ acc).Nodup := by
  induction fs with
  | nil => exact fun _ h => h
  | cons f fs ih => exact fun acc h => ih _ (nodup_addQ _ _ h)

theorem fmtLabel_mem_allLabels (f : Format) (q : String)
    (h : fmtLabel f = some q) : q ∈ allLabels := by
  obtain ⟨hgt⟩ := f
  cases hgt with
  | none => simp [fmtLabel] at h
  | some n =>
    simp only [fmtLabel] at h
    split at h
    · exact absurd h (by simp)
    · unfold bucketLabel at h
      split_ifs at h <;> simp_all [allLabels]

/-- The numeric sort keys of the five possible labels are pairwise
distinct, so descending-by-key sorting of a duplicate-free label list has
a unique result. -/
theorem qualityKey_inj_on_labels :
    ∀ a ∈ allLabels, ∀ b ∈ allLabels, a ≠ b → qualityKey a ≠ qualityKey b := by
  decide

theorem extract_nodup_sorted (fs : List Format) :
    (_extract_qualities fs).Nodup ∧
    (_extract_qualities fs).Pairwise (fun a b => qualityKey b < qualityKey a) := by
  haveI : IsTotal String (fun a b => qualityKey b ≤ qualityKey a) :=
    ⟨fun a b => Nat.le_total (qualityKey b) (qualityKey a)⟩
  haveI : IsTrans String (fun a b => qualityKey b ≤ qualityKey a) :=
    ⟨fun _ _ _ hab hbc => le_trans hbc hab⟩
  have hperm := List.perm_insertionSort
    (fun a b => qualityKey b ≤ qualityKey a) (fs.foldl addQ [])
  have hsor := List.sorted_insertionSort
    (fun a b => qualityKey b ≤ qualityKey a) (fs.foldl addQ [])
  have hnd0 : (fs.foldl addQ []).Nodup := nodup_foldl_addQ fs [] List.nodup_nil
  have hnd : (_extract_qualities fs).Nodup := hperm.nodup_iff.mpr hnd0
  have hmem : ∀ x ∈ _extract_qualities fs, x ∈ allLabels := by
    intro x hx
    have hx0 : x ∈ fs.foldl addQ [] := hperm.mem_iff.mp hx
    rcases (mem_foldl_addQ fs [] x).mp hx0 with hx1 | ⟨f, _, hfl⟩
    · simp at hx1
    · exact fmtLabel_mem_allLabels f x hfl
  refine ⟨hnd, ?_⟩
  have hcomb := List.Pairwise.and hsor hnd
  exact hcomb.imp_of_mem (fun {a b} ha hb hab =>
    lt_of_le_of_ne hab.1
      (Ne.symm (qualityKey_inj_on_labels a (hmem a ha) b (hmem b hb) hab.2)))

/-- C8: `_extract_qualities` always returns a duplicate-free list that is
strictly descending in the numeric prefix of its labels, and its output
depends only on the set of bucket labels its input produces: two format
lists yielding the same labels — in particular the same list twice, or
any reordering — give exactly the same output list. -/
theorem C8_quality_extraction (f₁ f₂ : List Format)
    (h : ∀ q : String,
      (∃ x ∈ f₁, fmtLabel x = some q) ↔ ∃ x ∈ f₂, fmtLabel x = some q) :
    (_extract_qualities f₁).Nodup ∧
    (_extract_qualities f₁).Pairwise (fun a b => qualityKey b < qualityKey a) ∧
    _extract_qualities f₁ = _extract_qualities f₂ := by
  obtain ⟨hnd1, hsort1⟩ := extract_nodup_sorted f₁
  obtain ⟨hnd2, hsort2⟩ := extract_nodup_sorted f₂
  refine ⟨hnd1, hsort1, ?_⟩
  haveI : IsAntisymm String (fun a b => qualityKey b < qualityKey a) :=
    ⟨fun a b h1 h2 => absurd (lt_trans h1 h2) (lt_irrefl _)⟩
  have hc : List.Perm (f₁.foldl addQ []) (f₂.foldl addQ []) := by
    rw [List.perm_ext_iff_of_nodup (nodup_foldl_addQ f₁ [] List.nodup_nil)
      (nodup_foldl_addQ f₂ [] List.nodup_nil)]
    intro q
    rw [mem_foldl_addQ, mem_foldl_addQ]
    simp [h q]
  have hp : List.Perm (_extract_qualities f₁) (_extract_qualities f₂) :=
    ((List.perm_insertionSort _ _).trans hc).trans
      (List.perm_insertionSort _ _).symm
  exact List.eq_of_perm_of_sorted hp hsort1 hsort2

/-- C8 witness: two reorderings of the same heights give the same sorted,
duplicate-free output. -/
theorem C8_quality_extraction_witness :
    (_extract_qualities [⟨some 1080⟩, ⟨some 720⟩]).Nodup ∧
    (_extract_qualities [⟨some 1080⟩, ⟨some 720⟩]).Pairwise
      (fun a b => qualityKey b < qualityKey a) ∧
    _extract_qualities [⟨some 1080⟩, ⟨some 720⟩] =
      _extract_qualities [⟨some 720⟩, ⟨some 1080⟩] :=
  C8_quality_extraction [⟨some 1080⟩, ⟨some 720⟩] [⟨some 720⟩, ⟨some 1080⟩]
    (fun q => by
      simp only [List.mem_cons, List.not_mem_nil, or_false]
      constructor
      · rintro ⟨x, hx | hx, hl⟩ <;> subst hx
        · exact ⟨_, Or.inr rfl, hl⟩
        · exact ⟨_, Or.inl rfl, hl⟩
      · rintro ⟨x, hx | hx, hl⟩ <;> subst hx
        · exact ⟨_, Or.inr rfl, hl⟩
        · exact ⟨_, Or.inl rfl, hl⟩)

/-! ## C9 — thumbnail selection -/

/-- C9 counterexample: with thumbnails of widths 480 and 1920 the code
returns the url of the FIRST thumbnail at least 480 wide ("a"), not the
url of the highest-resolution one ("b"). -/
theorem C9_counterexample :
    bestThumbnail [⟨some 480, some "a"⟩, ⟨some 1920, some "b"⟩] = some "a" ∧
    specHighestResThumb [⟨some 480, some "a"⟩, ⟨some 1920, some "b"⟩] =
      some "b" ∧
    bestThumbnail [⟨some 480, some "a"⟩, ⟨some 1920, some "b"⟩] ≠
      specHighestResThumb [⟨some 480, some "a"⟩, ⟨some 1920, some "b"⟩] := by
  decide

/-- C9 amended: the metadata result's thumbnail is the url of the FIRST
thumbnail in list order whose width is at least 480 (when that url is
present and non-empty); when no thumbnail matches — every thumbnail's
width, a missing width counting as 0, is below 480, which in particular
covers an extractor exposing no per-thumbnail dimensions at all — the
extractor's primary thumbnail, the first of the list, supplies the
url. -/
theorem C9_amended (ts : List Thumb) :
    (∀ t u, ts.find? (fun t => 480 ≤ t.width.getD 0) = some t →
      t.url = some u → u ≠ "" → bestThumbnail ts = some u) ∧
    ((∀ t ∈ ts, t.width.getD 0 < 480) →
      bestThumbnail ts = ts.head?.bind (fun t => t.url)) := by
  constructor
  · intro t u hfind hurl hne
    have hts : ts.isEmpty = false := by
      cases ts with
      | nil => simp at hfind
      | cons a l => rfl
    unfold bestThumbnail
    rw [hts, hfind]
    simp [hurl, hne]
  · intro hall
    cases hts : ts.isEmpty with
    | true =>
      have : ts = [] := List.isEmpty_iff.mp hts
      subst this
      rfl
    | false =>
      have hfind : ts.find? (fun t => 480 ≤ t.width.getD 0) = none := by
        rw [List.find?_eq_none]
        intro t ht
        have := hall t ht
        simp only [decide_eq_true_eq]
        omega
      unfold bestThumbnail
      rw [hts, hfind]
      rfl

/-- C9 amended witness: first-match selection, the all-below-480
fallback, and the no-dimensions fallback, each at a concrete list. -/
theorem C9_amended_witness :
    bestThumbnail [⟨some 500, some "u1"⟩, ⟨some 1920, some "u2"⟩] =
      some "u1" ∧
    bestThumbnail [⟨some 100, some "p1"⟩, ⟨some 200, some "p2"⟩] =
      some "p1" ∧
    bestThumbnail [⟨none, some "q1"⟩, ⟨none, some "q2"⟩] = some "q1" :=
  ⟨(C9_amended [⟨some 500, some "u1"⟩, ⟨some 1920, some "u2"⟩]).1
      ⟨some 500, some "u1"⟩ "u1" (by decide) rfl (by decide),
   (C9_amended [⟨some 100, some "p1"⟩, ⟨some 200, some "p2"⟩]).2 (by decide),
   (C9_amended [⟨none, some "q1"⟩, ⟨none, some "q2"⟩]).2 (by decide)⟩

end NB
